import Mathlib

/-!
Verification of the library-management lifecycle engine
(`library_service.py`) against its specification.

The service code is embedded shallowly: the persistent SQLite store
becomes an explicit `Store` value threaded through each operation,
timestamps become integer day numbers (the code only ever compares
calendar dates and adds whole days), and money is held in integer
cents (every fee the code can produce is an exact multiple of 50
cents, so Python's binary floats represent it exactly and
`round(fee + 1e-9, 2)` is the identity on it).

The persistence primitives (`get_book_by_id`, `insert_borrow_record`,
...) live in `database.py`, which is not part of the verified sources;
they are modelled from the specification's persistence-collaborator
contract (spec section 6).  Records are appended in insertion order
with strictly increasing ids, so "the last matching element of the
list" realises the SQL `ORDER BY id DESC LIMIT 1` / "most recently
created record" tie-break of the contract.
-/

namespace Library

/-- A catalog row, as stored by the persistence layer (spec section 3). -/
structure Book where
  id : Int
  title : String
  author : String
  isbn : String
  total_copies : Int
  available_copies : Int
deriving Repr, DecidableEq

/-- A borrow row.  `return_date = none` marks an active loan. -/
structure BorrowRecord where
  id : Int
  patron_id : String
  book_id : Int
  borrow_date : Int
  due_date : Int
  return_date : Option Int
deriving Repr, DecidableEq

/-- The whole persistent state: the `books` and `borrows` tables plus
the autoincrement counters for their primary keys. -/
structure Store where
  books : List Book
  borrows : List BorrowRecord
  next_book_id : Int
  next_borrow_id : Int
deriving Repr, DecidableEq

/-- The store of a freshly created database. -/
def Store.empty : Store := ⟨[], [], 1, 1⟩

/-- Modelled from the spec: `get_book_by_id(id) → Book|null`
(`database.py` is not among the verified sources). -/
def get_book_by_id (s : Store) (book_id : Int) : Option Book :=
  s.books.find? (fun b => b.id == book_id)

/-- Modelled from the spec: `get_book_by_isbn(isbn) → Book|null`. -/
def get_book_by_isbn (s : Store) (isbn : String) : Option Book :=
  s.books.find? (fun b => b.isbn == isbn)

/-- Modelled from the spec: `insert_book(title, author, isbn, total,
available) → bool`; the new row gets the next free id.  In the
reliable-store model the insert always succeeds, so only the updated
store is returned. -/
def insert_book (s : Store) (title author isbn : String)
    (total available : Int) : Store :=
  { s with
    books := s.books ++ [⟨s.next_book_id, title, author, isbn, total, available⟩]
    next_book_id := s.next_book_id + 1 }

/-- Modelled from the spec: `get_patron_borrow_count(patron_id) → int`,
the count of the patron's active (unreturned) records. -/
def get_patron_borrow_count (s : Store) (patron_id : String) : Nat :=
  s.borrows.countP (fun r => r.patron_id == patron_id && r.return_date.isNone)

/-- Modelled from the spec: `insert_borrow_record(patron_id, book_id,
borrow_date, due_date) → bool`; the new row is active
(`return_date = none`) and gets the next free id. -/
def insert_borrow_record (s : Store) (patron_id : String) (book_id : Int)
    (borrow_date due_date : Int) : Store :=
  { s with
    borrows := s.borrows ++
      [⟨s.next_borrow_id, patron_id, book_id, borrow_date, due_date, none⟩]
    next_borrow_id := s.next_borrow_id + 1 }

/-- The active-loan predicate used by the return/fee lookups:
matching patron, matching book, `return_date IS NULL`. -/
def isActiveFor (patron_id : String) (book_id : Int) (r : BorrowRecord) : Bool :=
  r.patron_id == patron_id && r.book_id == book_id && r.return_date.isNone

/-- The per-row effect of the return-date `UPDATE`: close the record
with the given id, leave other rows alone. -/
def closeRec (rec_id : Int) (return_date : Int) (r : BorrowRecord) : BorrowRecord :=
  if r.id == rec_id then { r with return_date := some return_date } else r

/-- The most recently created active record for `(patron_id, book_id)`:
the embedding of `SELECT ... WHERE ... AND return_date IS NULL ORDER BY
id DESC LIMIT 1`.  Rows sit in the list in insertion order, so the last
match is the one with the greatest id. -/
def latest_active_borrow (s : Store) (patron_id : String) (book_id : Int) :
    Option BorrowRecord :=
  s.borrows.reverse.find? (isActiveFor patron_id book_id)

/-- The per-row effect of the availability `UPDATE`: add `delta` to the
matching book's `available_copies`, leave other rows alone. -/
def updAvail (book_id delta : Int) (b : Book) : Book :=
  if b.id == book_id then
    { b with available_copies := b.available_copies + delta }
  else b

/-- Modelled from the spec: `update_book_availability(book_id, delta) →
bool`; adds `delta` to the matching row's `available_copies`, reporting
whether a row matched. -/
def update_book_availability (s : Store) (book_id : Int) (delta : Int) :
    Bool × Store :=
  if s.books.any (fun b => b.id == book_id) then
    (true, { s with books := s.books.map (updAvail book_id delta) })
  else (false, s)

/-- Modelled from the spec: `update_borrow_record_return_date(patron_id,
book_id, return_date) → bool`, false when no matching active record
exists; on the tie-break it closes the most recently created match
(spec section 4.3). -/
def update_borrow_record_return_date (s : Store) (patron_id : String)
    (book_id : Int) (return_date : Int) : Bool × Store :=
  match latest_active_borrow s patron_id book_id with
  | none => (false, s)
  | some r0 =>
    (true, { s with borrows := s.borrows.map (closeRec r0.id return_date) })

/-- Python's `str.strip()`: drop leading and trailing whitespace.
(Defined over the character list so that it evaluates by kernel
reduction; Lean's `Char.isWhitespace` covers the ASCII whitespace that
matters for this service's inputs.) -/
def pyStrip (s : String) : String :=
  ⟨((s.data.dropWhile Char.isWhitespace).reverse.dropWhile
      Char.isWhitespace).reverse⟩

/-- The patron-id gate appearing at the top of borrow, return and fee
calculation: `not patron_id or not patron_id.isdigit() or
len(patron_id) != 6`, i.e. exactly six (ASCII) digits. -/
def valid_patron_id (patron_id : String) : Bool :=
  patron_id.data.length == 6 && patron_id.data.all Char.isDigit

/-- The ISBN gate of `add_book_to_catalog`:
`len(isbn) == 13 and isbn.isdigit()`. -/
def valid_isbn13 (isbn : String) : Bool :=
  isbn.data.length == 13 && isbn.data.all Char.isDigit

/-- A Python value handed to the `total_copies : int` parameter.  `bool`
is a subclass of `int` there (`True == 1`), so `isinstance(x, int)`
accepts both; `nonint` stands for any value of another type. -/
inductive PyNum where
  | int (n : Int)
  | bool (b : Bool)
  | nonint
deriving Repr, DecidableEq

/-- `isinstance(x, int)` on a `PyNum`. -/
def PyNum.is_int : PyNum → Bool
  | .int _ => true
  | .bool _ => true
  | .nonint => false

/-- The numeric value of a `PyNum` (`True == 1`, `False == 0`); this is
also what SQLite stores for it.  The value of `nonint` is never used:
such inputs are rejected before any arithmetic. -/
def PyNum.val : PyNum → Int
  | .int n => n
  | .bool b => if b then 1 else 0
  | .nonint => 0

/-- `add_book_to_catalog(title, author, isbn, total_copies)` from
`library_service.py`.  `title`, `author`, `isbn` arrive as
`Option String` because callers may pass `None`; the code's
`(x or "").strip()` becomes `pyStrip (x.getD "")`. -/
def add_book_to_catalog (s : Store) (title author isbn : Option String)
    (total_copies : PyNum) : (Bool × String) × Store :=
  if pyStrip (title.getD "") == "" then ((false, "Title is required."), s)
  else if 200 < (pyStrip (title.getD "")).length then
    ((false, "Title must be less than 200 characters."), s)
  else if pyStrip (author.getD "") == "" then ((false, "Author is required."), s)
  else if 100 < (pyStrip (author.getD "")).length then
    ((false, "Author must be less than 100 characters."), s)
  else if !(valid_isbn13 (pyStrip (isbn.getD ""))) then
    ((false, "ISBN must be exactly 13 digits."), s)
  else if !(total_copies.is_int && decide (0 < total_copies.val)) then
    ((false, "Total copies must be a positive integer."), s)
  else if (get_book_by_isbn s (pyStrip (isbn.getD ""))).isSome then
    ((false, "A book with this ISBN already exists."), s)
  else
    ((true, "Book \"" ++ pyStrip (title.getD "") ++
        "\" has been successfully added to the catalog."),
     insert_book s (pyStrip (title.getD "")) (pyStrip (author.getD ""))
       (pyStrip (isbn.getD "")) total_copies.val total_copies.val)

/-- `borrow_book_by_patron(patron_id, book_id)` with explicit
write-failure injection: `insert_ok` (resp. `update_ok`) is whether the
`insert_borrow_record` (resp. `update_book_availability`) write
succeeds.  A failed write leaves the store as it was before that write
— which, for the second write, is the store that already holds the new
borrow record.  `today` is the injected `datetime.now()` clock, as a
day number. -/
def borrow_book_by_patron_wf (s : Store) (today : Int) (patron_id : String)
    (book_id : Int) (insert_ok update_ok : Bool) : (Bool × String) × Store :=
  if !(valid_patron_id patron_id) then
    ((false, "Invalid patron ID. Must be exactly 6 digits."), s)
  else
    match get_book_by_id s book_id with
    | none => ((false, "Book not found."), s)
    | some book =>
      if book.available_copies ≤ 0 then
        ((false, "This book is currently not available."), s)
      else if 5 ≤ get_patron_borrow_count s patron_id then
        ((false, "You have reached the maximum borrowing limit of 5 books."), s)
      else if !insert_ok then
        ((false, "Database error occurred while creating borrow record."), s)
      else if !(update_ok &&
          (update_book_availability
            (insert_borrow_record s patron_id book_id today (today + 14))
            book_id (-1)).1) then
        ((false, "Database error occurred while updating book availability."),
         insert_borrow_record s patron_id book_id today (today + 14))
      else
        ((true, "Successfully borrowed \"" ++ book.title ++
            "\". Due date: " ++ toString (today + 14) ++ "."),
         (update_book_availability
           (insert_borrow_record s patron_id book_id today (today + 14))
           book_id (-1)).2)

/-- `borrow_book_by_patron` on a reliable store (both writes succeed). -/
def borrow_book_by_patron (s : Store) (today : Int) (patron_id : String)
    (book_id : Int) : (Bool × String) × Store :=
  borrow_book_by_patron_wf s today patron_id book_id true true

/-- `return_book_by_patron(patron_id, book_id)` from
`library_service.py`.  `book_id` arrives as the result of the code's
`int(book_id)` coercion attempt: `none` when that raises. -/
def return_book_by_patron (s : Store) (now : Int) (patron_id : String)
    (book_id : Option Int) : (Bool × String) × Store :=
  if !(valid_patron_id patron_id) then
    ((false, "Invalid patron ID. Must be exactly 6 digits."), s)
  else
    match book_id with
    | none => ((false, "Invalid book id."), s)
    | some bid =>
      match get_book_by_id s bid with
      | none => ((false, "Book not found."), s)
      | some book =>
        if !(update_borrow_record_return_date s patron_id bid now).1 then
          ((false, "No active borrow for this patron and book."), s)
        else if !(update_book_availability
            (update_borrow_record_return_date s patron_id bid now).2 bid 1).1 then
          ((false, "Database error occurred while updating availability."),
           (update_borrow_record_return_date s patron_id bid now).2)
        else
          ((true, "Returned \"" ++ book.title ++ "\"."),
           (update_book_availability
             (update_borrow_record_return_date s patron_id bid now).2 bid 1).2)

/-- The status field of a late-fee result. -/
inductive FeeStatus where
  | on_time
  | late
  | no_active_loan
deriving Repr, DecidableEq

/-- The dictionary returned by `calculate_late_fee_for_book`, with the
fee in integer cents (`fee_amount` dollars = `fee_cents / 100`; every
reachable fee is a multiple of 50 cents, exactly representable as a
Python float, on which `round(. + 1e-9, 2)` is the identity). -/
structure FeeResult where
  fee_cents : Nat
  days_overdue : Nat
  status : FeeStatus
deriving Repr, DecidableEq

/-- `calculate_late_fee_for_book(patron_id, book_id)` from
`library_service.py`.  `today` is the injected `datetime.now()` clock;
`book_id` is the result of the `int(book_id)` coercion attempt (`none`
when it raises).  Stored due dates are day numbers, so the
`datetime.fromisoformat` defensive branch (unparseable stored date)
cannot arise in the model. -/
def calculate_late_fee_for_book (s : Store) (today : Int) (patron_id : String)
    (book_id : Option Int) : FeeResult :=
  if !(valid_patron_id patron_id) then ⟨0, 0, .no_active_loan⟩
  else
    match book_id with
    | none => ⟨0, 0, .no_active_loan⟩
    | some bid =>
      match latest_active_borrow s patron_id bid with
      | none => ⟨0, 0, .no_active_loan⟩
      | some r0 =>
        if (today - r0.due_date).toNat == 0 then ⟨0, 0, .on_time⟩
        else
          ⟨min 1500 (min (today - r0.due_date).toNat 7 * 50 +
              ((today - r0.due_date).toNat - 7) * 100),
           (today - r0.due_date).toNat, .late⟩

/-- One service call, for reasoning about operation sequences.  `ret`
is the return operation (`return` is reserved). -/
inductive Op where
  | add (title author isbn : Option String) (copies : PyNum)
  | borrow (today : Int) (patron_id : String) (book_id : Int)
  | ret (now : Int) (patron_id : String) (book_id : Option Int)

/-- The store after one service call (reliable persistence). -/
def applyOp (s : Store) : Op → Store
  | .add t a i c => (add_book_to_catalog s t a i c).2
  | .borrow d p b => (borrow_book_by_patron s d p b).2
  | .ret d p b => (return_book_by_patron s d p b).2

/-- The store after a sequence of service calls. -/
def runOps (s : Store) : List Op → Store
  | [] => s
  | op :: ops => runOps (applyOp s op) ops

/-- One borrow immediately followed by the matching return. -/
def borrowThenReturn (s : Store) (today now : Int) (patron_id : String)
    (book_id : Int) : Store :=
  (return_book_by_patron (borrow_book_by_patron s today patron_id book_id).2
    now patron_id (some book_id)).2

/-- `n` repetitions of borrow-then-return on the same pair, the `k`-th
round using the dates `dates k`. -/
def repeatBorrowReturn (patron_id : String) (book_id : Int)
    (dates : Nat → Int × Int) : Store → Nat → Store
  | s, 0 => s
  | s, n + 1 =>
    repeatBorrowReturn patron_id book_id dates
      (borrowThenReturn s (dates n).1 (dates n).2 patron_id book_id) n

/-- The number of active loans of a given book. -/
def book_active_count (s : Store) (book_id : Int) : Nat :=
  s.borrows.countP (fun r => r.book_id == book_id && r.return_date.isNone)

/-- The reachable-state invariant: primary keys are distinct and below
the autoincrement counters, borrow rows reference allocated book ids,
and each book's available copies plus its active loans equal its total
copies, with availability never negative. -/
structure StoreInv (s : Store) : Prop where
  books_nodup : (s.books.map Book.id).Nodup
  books_lt : ∀ b ∈ s.books, b.id < s.next_book_id
  borrows_nodup : (s.borrows.map BorrowRecord.id).Nodup
  borrows_lt : ∀ r ∈ s.borrows, r.id < s.next_borrow_id
  borrows_book_lt : ∀ r ∈ s.borrows, r.book_id < s.next_book_id
  counts : ∀ b ∈ s.books, b.available_copies + (book_active_count s b.id : Int) = b.total_copies
  avail_nonneg : ∀ b ∈ s.books, 0 ≤ b.available_copies

/-! ### Basic facts about the store primitives -/

@[simp]
theorem updAvail_id (book_id delta : Int) (b : Book) :
    (updAvail book_id delta b).id = b.id := by
  unfold updAvail; split <;> rfl

@[simp]
theorem updAvail_isbn (book_id delta : Int) (b : Book) :
    (updAvail book_id delta b).isbn = b.isbn := by
  unfold updAvail; split <;> rfl

@[simp]
theorem updAvail_total (book_id delta : Int) (b : Book) :
    (updAvail book_id delta b).total_copies = b.total_copies := by
  unfold updAvail; split <;> rfl

theorem updAvail_avail (book_id delta : Int) (b : Book) :
    (updAvail book_id delta b).available_copies =
      if b.id = book_id then b.available_copies + delta
      else b.available_copies := by
  unfold updAvail
  by_cases h : b.id = book_id <;> simp [h]

@[simp]
theorem closeRec_id (rec_id return_date : Int) (r : BorrowRecord) :
    (closeRec rec_id return_date r).id = r.id := by
  unfold closeRec; split <;> rfl

@[simp]
theorem closeRec_patron (rec_id return_date : Int) (r : BorrowRecord) :
    (closeRec rec_id return_date r).patron_id = r.patron_id := by
  unfold closeRec; split <;> rfl

@[simp]
theorem closeRec_book (rec_id return_date : Int) (r : BorrowRecord) :
    (closeRec rec_id return_date r).book_id = r.book_id := by
  unfold closeRec; split <;> rfl

theorem closeRec_eq_self (rec_id return_date : Int) (r : BorrowRecord)
    (h : r.id ≠ rec_id) : closeRec rec_id return_date r = r := by
  unfold closeRec
  simp [h]

/-- `find?` commutes with mapping a function that preserves the
searched predicate. -/
theorem find?_map_pred_comm {α : Type} (l : List α) (p : α → Bool) (f : α → α)
    (hf : ∀ a, p (f a) = p a) : (l.map f).find? p = (l.find? p).map f := by
  have hpf : p ∘ f = p := funext fun a => hf a
  rw [List.find?_map, hpf]

/-- Looking a book up after an availability update: the result is the
updated row of the original lookup. -/
theorem get_book_by_id_update_avail (s : Store) (book_id delta tid : Int) :
    get_book_by_id (update_book_availability s book_id delta).2 tid
      = (get_book_by_id s tid).map (updAvail book_id delta) := by
  unfold update_book_availability get_book_by_id
  split
  · exact find?_map_pred_comm _ _ _ (fun b => by simp)
  · rename_i hany
    simp only [List.any_eq_true, not_exists, not_and, Bool.not_eq_true] at hany
    cases hf : s.books.find? (fun b => b.id == tid) with
    | none => simp
    | some b =>
      have hb : b ∈ s.books := List.mem_of_find?_eq_some hf
      have : (b.id == book_id) = false := hany b hb
      simp [updAvail, this]

@[simp]
theorem update_book_availability_borrows (s : Store) (book_id delta : Int) :
    (update_book_availability s book_id delta).2.borrows = s.borrows := by
  unfold update_book_availability; split <;> rfl

@[simp]
theorem update_return_date_books (s : Store) (p : String) (bid rd : Int) :
    (update_borrow_record_return_date s p bid rd).2.books = s.books := by
  unfold update_borrow_record_return_date
  split <;> rfl

@[simp]
theorem get_book_by_id_insert_borrow (s : Store) (p : String)
    (bid bd dd tid : Int) :
    get_book_by_id (insert_borrow_record s p bid bd dd) tid
      = get_book_by_id s tid := rfl

/-- What a successful `latest_active_borrow` lookup guarantees. -/
theorem latest_active_borrow_spec (s : Store) (p : String) (bid : Int)
    (r0 : BorrowRecord) (h : latest_active_borrow s p bid = some r0) :
    r0 ∈ s.borrows ∧ r0.patron_id = p ∧ r0.book_id = bid ∧
      r0.return_date = none := by
  unfold latest_active_borrow at h
  have hmem : r0 ∈ s.borrows := List.mem_reverse.mp (List.mem_of_find?_eq_some h)
  have hact : isActiveFor p bid r0 = true := List.find?_some h
  unfold isActiveFor at hact
  simp only [Bool.and_eq_true, beq_iff_eq, Option.isNone_iff_eq_none] at hact
  exact ⟨hmem, hact.1.1, hact.1.2, hact.2⟩

theorem book_active_count_insert (s : Store) (p : String)
    (bid bd dd tid : Int) :
    book_active_count (insert_borrow_record s p bid bd dd) tid
      = book_active_count s tid + (if bid = tid then 1 else 0) := by
  unfold book_active_count insert_borrow_record
  by_cases h : bid = tid <;>
    simp [List.countP_append, List.countP_cons, h]

theorem get_patron_borrow_count_insert (s : Store) (p : String)
    (bid bd dd : Int) (q : String) :
    get_patron_borrow_count (insert_borrow_record s p bid bd dd) q
      = get_patron_borrow_count s q + (if p = q then 1 else 0) := by
  unfold get_patron_borrow_count insert_borrow_record
  by_cases h : p = q <;>
    simp [List.countP_append, List.countP_cons, h]

/-- Closing one record (identified by a primary key that occurs only
once) moves `countP` by the difference between the closed and the open
row's predicate value. -/
theorem countP_map_close (l : List BorrowRecord) (r0 : BorrowRecord)
    (rd : Int) (hmem : r0 ∈ l) (hnodup : (l.map BorrowRecord.id).Nodup)
    (p : BorrowRecord → Bool) :
    (l.map (closeRec r0.id rd)).countP p + (if p r0 then 1 else 0)
      = l.countP p +
        (if p { r0 with return_date := some rd } then 1 else 0) := by
  induction l with
  | nil => cases hmem
  | cons x t ih =>
    rw [List.map_cons, List.nodup_cons] at hnodup
    rcases List.mem_cons.mp hmem with rfl | hmem2
    · have ht : ∀ r ∈ t, closeRec r0.id rd r = r := by
        intro r hr
        refine closeRec_eq_self _ _ _ (fun he => hnodup.1 ?_)
        exact he ▸ List.mem_map_of_mem BorrowRecord.id hr
      have hx : closeRec r0.id rd r0 = { r0 with return_date := some rd } := by
        unfold closeRec; simp
      rw [List.map_cons, List.map_congr_left ht, List.map_id', hx,
        List.countP_cons, List.countP_cons]
      omega
    · have hxid : x.id ≠ r0.id := by
        intro he
        exact hnodup.1 (he ▸ List.mem_map_of_mem BorrowRecord.id hmem2)
      rw [List.map_cons, closeRec_eq_self _ _ _ hxid, List.countP_cons,
        List.countP_cons]
      have := ih hmem2 hnodup.2
      omega

/-! ### Characterisation of the borrow and return operations -/

/-- What a successful book lookup guarantees. -/
theorem get_book_by_id_spec (s : Store) (bid : Int) (book : Book)
    (h : get_book_by_id s bid = some book) :
    book ∈ s.books ∧ book.id = bid := by
  unfold get_book_by_id at h
  have h1 := List.mem_of_find?_eq_some h
  have h2 := List.find?_some h
  simp only [beq_iff_eq] at h2
  exact ⟨h1, h2⟩

/-- A book found by id makes the availability `UPDATE` match a row. -/
theorem books_any_of_get (s : Store) (bid : Int) (book : Book)
    (h : get_book_by_id s bid = some book) :
    s.books.any (fun b => b.id == bid) = true := by
  unfold get_book_by_id at h
  have h1 := List.mem_of_find?_eq_some h
  have h2 := List.find?_some h
  rw [List.any_eq_true]
  exact ⟨book, h1, h2⟩

/-- The full effect of a successful borrow: one active record appended
with due date fourteen days out, and the book's availability lowered by
one. -/
theorem borrow_success_state (s : Store) (today : Int) (p : String)
    (bid : Int) (book : Book) (hv : valid_patron_id p = true)
    (hb : get_book_by_id s bid = some book)
    (ha : 0 < book.available_copies)
    (hc : get_patron_borrow_count s p < 5) :
    borrow_book_by_patron s today p bid =
      ((true, "Successfully borrowed \"" ++ book.title ++ "\". Due date: "
          ++ toString (today + 14) ++ "."),
       { books := s.books.map (updAvail bid (-1)),
         borrows := s.borrows ++
           [⟨s.next_borrow_id, p, bid, today, today + 14, none⟩],
         next_book_id := s.next_book_id,
         next_borrow_id := s.next_borrow_id + 1 }) := by
  have hany : s.books.any (fun b => b.id == bid) = true :=
    books_any_of_get s bid book hb
  have h1 : ¬ book.available_copies ≤ 0 := not_le.mpr ha
  have h2 : ¬ 5 ≤ get_patron_borrow_count s p := Nat.not_le.mpr hc
  unfold borrow_book_by_patron borrow_book_by_patron_wf
  simp only [hv, hb, Bool.not_true, Bool.false_eq_true, if_false, h1, h2,
    if_true]
  simp [update_book_availability, insert_borrow_record, hany]

/-- A borrow that reports success passed every gate: valid patron id,
existing book with a free copy, patron under the five-loan limit. -/
theorem borrow_success_conditions (s : Store) (today : Int) (p : String)
    (bid : Int) (h : (borrow_book_by_patron s today p bid).1.1 = true) :
    valid_patron_id p = true ∧
      ∃ book, get_book_by_id s bid = some book ∧
        0 < book.available_copies ∧ get_patron_borrow_count s p < 5 := by
  unfold borrow_book_by_patron borrow_book_by_patron_wf at h
  by_cases hv : valid_patron_id p = true
  · refine ⟨hv, ?_⟩
    cases hb : get_book_by_id s bid with
    | none => rw [hb] at h; simp [hv] at h
    | some book =>
      rw [hb] at h
      simp only [hv, Bool.not_true, Bool.false_eq_true, if_false] at h
      by_cases h1 : book.available_copies ≤ 0
      · simp [h1] at h
      · by_cases h2 : 5 ≤ get_patron_borrow_count s p
        · simp [h1, h2] at h
        · exact ⟨book, rfl, lt_of_not_le h1, Nat.lt_of_not_le h2⟩
  · simp [hv] at h

/-- The full effect of a successful return: the most recent active
record of the pair closed, and the book's availability raised by one. -/
theorem return_success_state (s : Store) (now : Int) (p : String)
    (bid : Int) (book : Book) (r0 : BorrowRecord)
    (hv : valid_patron_id p = true)
    (hb : get_book_by_id s bid = some book)
    (hl : latest_active_borrow s p bid = some r0) :
    return_book_by_patron s now p (some bid) =
      ((true, "Returned \"" ++ book.title ++ "\"."),
       { books := s.books.map (updAvail bid 1),
         borrows := s.borrows.map (closeRec r0.id now),
         next_book_id := s.next_book_id,
         next_borrow_id := s.next_borrow_id }) := by
  have hany : s.books.any (fun b => b.id == bid) = true :=
    books_any_of_get s bid book hb
  unfold return_book_by_patron
  simp only [hv, hb, Bool.not_true, Bool.false_eq_true, if_false]
  simp [update_borrow_record_return_date, hl, update_book_availability, hany]

/-! ### Preservation of the reachable-state invariant -/

/-- The availability bounds of spec section 3 follow from the counting
invariant. -/
theorem StoreInv.bounds {s : Store} (h : StoreInv s) :
    ∀ b ∈ s.books, 0 ≤ b.available_copies ∧
      b.available_copies ≤ b.total_copies := by
  intro b hb
  refine ⟨h.avail_nonneg b hb, ?_⟩
  have hc := h.counts b hb
  have hnn : (0 : Int) ≤ (book_active_count s b.id : Int) := Int.natCast_nonneg _
  omega

/-- With distinct primary keys, any stored book carrying the looked-up
id is the looked-up book. -/
theorem mem_eq_of_get {s : Store} (hnd : (s.books.map Book.id).Nodup)
    {bid : Int} {book b : Book} (hb : get_book_by_id s bid = some book)
    (hbm : b ∈ s.books) (hid : b.id = bid) : b = book := by
  have hspec := get_book_by_id_spec s bid book hb
  exact List.inj_on_of_nodup_map hnd hbm hspec.1 (by rw [hid, hspec.2])

/-- Inserting a fresh book keeps the invariant; the seeded counters
satisfy it because no borrow row can reference the fresh id. -/
theorem insert_book_preserves (s : Store) (t a i : String) (v : Int)
    (hv : 0 < v) (h : StoreInv s) : StoreInv (insert_book s t a i v v) := by
  have hfresh : s.next_book_id ∉ s.books.map Book.id := by
    intro hin
    obtain ⟨b, hb, hid⟩ := List.mem_map.mp hin
    have := h.books_lt b hb
    omega
  constructor
  · rw [insert_book, List.map_append]
    refine List.Nodup.append h.books_nodup (List.nodup_singleton _) ?_
    intro x hx hx2
    simp only [List.map_cons, List.map_nil, List.mem_singleton] at hx2
    exact hfresh (hx2 ▸ hx)
  · intro b hb
    rcases List.mem_append.mp hb with hb1 | hb2
    · have := h.books_lt b hb1; simp only [insert_book]; omega
    · simp only [List.mem_singleton] at hb2
      subst hb2
      simp only [insert_book]
      omega
  · exact h.borrows_nodup
  · exact h.borrows_lt
  · intro r hr
    have := h.borrows_book_lt r hr
    simp only [insert_book]
    omega
  · intro b hb
    rcases List.mem_append.mp hb with hb1 | hb2
    · exact h.counts b hb1
    · simp only [List.mem_singleton] at hb2
      subst hb2
      have hz : book_active_count (insert_book s t a i v v) s.next_book_id = 0 := by
        rw [book_active_count, List.countP_eq_zero]
        intro r hr
        have := h.borrows_book_lt r hr
        simp only [Bool.and_eq_true, beq_iff_eq]
        intro hc
        omega
      simp only [hz]
      omega
  · intro b hb
    rcases List.mem_append.mp hb with hb1 | hb2
    · exact h.avail_nonneg b hb1
    · simp only [List.mem_singleton] at hb2
      subst hb2
      exact le_of_lt hv

/-- `add_book_to_catalog` keeps the invariant: failures leave the store
untouched and a success inserts a fresh book with positive copies. -/
theorem add_book_preserves (s : Store) (t a i : Option String) (c : PyNum)
    (h : StoreInv s) : StoreInv (add_book_to_catalog s t a i c).2 := by
  unfold add_book_to_catalog
  split_ifs with h1 h2 h3 h4 h5 h6 h7
  · exact h
  · exact h
  · exact h
  · exact h
  · exact h
  · exact h
  · exact h
  · have h6t : (c.is_int && decide (0 < c.val)) = true := by
      revert h6
      cases c.is_int && decide (0 < c.val) <;> simp
    have hpos : 0 < c.val :=
      of_decide_eq_true (Bool.and_eq_true_iff.mp h6t).2
    exact insert_book_preserves s _ _ _ c.val hpos h

/-- A borrow that reports failure has not touched the store (reliable
persistence: with the book present, the availability write matches a
row). -/
theorem borrow_fail_state (s : Store) (today : Int) (p : String) (bid : Int)
    (h : (borrow_book_by_patron s today p bid).1.1 = false) :
    (borrow_book_by_patron s today p bid).2 = s := by
  unfold borrow_book_by_patron borrow_book_by_patron_wf at h ⊢
  by_cases hv : valid_patron_id p = true
  · cases hb : get_book_by_id s bid with
    | none => simp [hv, hb]
    | some book =>
      rw [hb] at h
      simp only [hv, Bool.not_true, Bool.false_eq_true, if_false] at h ⊢
      by_cases h1 : book.available_copies ≤ 0
      · simp [h1]
      · by_cases h2 : 5 ≤ get_patron_borrow_count s p
        · simp [h1, h2]
        · exfalso
          have hany : s.books.any (fun b => b.id == bid) = true :=
            books_any_of_get s bid book hb
          simp [h1, h2, update_book_availability, insert_borrow_record,
            hany] at h
  · simp [hv]

/-- A return that reports success passed every gate: valid patron id,
integer book id, existing book, and an active record for the pair. -/
theorem return_success_conditions (s : Store) (now : Int) (p : String)
    (obid : Option Int)
    (h : (return_book_by_patron s now p obid).1.1 = true) :
    valid_patron_id p = true ∧
      ∃ bid book r0, obid = some bid ∧ get_book_by_id s bid = some book ∧
        latest_active_borrow s p bid = some r0 := by
  unfold return_book_by_patron at h
  by_cases hv : valid_patron_id p = true
  · refine ⟨hv, ?_⟩
    cases obid with
    | none => simp [hv] at h
    | some bid =>
      simp only [hv, Bool.not_true, Bool.false_eq_true, if_false] at h
      cases hb : get_book_by_id s bid with
      | none => rw [hb] at h; simp at h
      | some book =>
        rw [hb] at h
        simp only [] at h
        cases hl : latest_active_borrow s p bid with
        | none =>
          simp [update_borrow_record_return_date, hl] at h
        | some r0 => exact ⟨bid, book, r0, rfl, hb, hl⟩
  · simp [hv] at h

/-- A return that reports failure has not touched the store. -/
theorem return_fail_state (s : Store) (now : Int) (p : String)
    (obid : Option Int)
    (h : (return_book_by_patron s now p obid).1.1 = false) :
    (return_book_by_patron s now p obid).2 = s := by
  unfold return_book_by_patron at h ⊢
  by_cases hv : valid_patron_id p = true
  · cases obid with
    | none => simp [hv]
    | some bid =>
      simp only [hv, Bool.not_true, Bool.false_eq_true, if_false] at h ⊢
      cases hb : get_book_by_id s bid with
      | none => rfl
      | some book =>
        rw [hb] at h
        simp only [] at h ⊢
        cases hl : latest_active_borrow s p bid with
        | none =>
          simp [update_borrow_record_return_date, hl]
        | some r0 =>
          exfalso
          have hany : s.books.any (fun b => b.id == bid) = true :=
            books_any_of_get s bid book hb
          simp [update_borrow_record_return_date, hl,
            update_book_availability, hany] at h
  · simp [hv]

/-- The store a successful borrow produces satisfies the invariant. -/
theorem borrow_store_inv (s : Store) (today : Int) (p : String) (bid : Int)
    (book : Book) (hb : get_book_by_id s bid = some book)
    (ha : 0 < book.available_copies) (h : StoreInv s) :
    StoreInv
      { books := s.books.map (updAvail bid (-1)),
        borrows := s.borrows ++
          [⟨s.next_borrow_id, p, bid, today, today + 14, none⟩],
        next_book_id := s.next_book_id,
        next_borrow_id := s.next_borrow_id + 1 } := by
  have hids : (s.books.map (updAvail bid (-1))).map Book.id
      = s.books.map Book.id := by
    rw [List.map_map]
    exact List.map_congr_left fun b _ => updAvail_id bid (-1) b
  have hfreshb : s.next_borrow_id ∉ s.borrows.map BorrowRecord.id := by
    intro hin
    obtain ⟨r, hr, hidr⟩ := List.mem_map.mp hin
    have := h.borrows_lt r hr
    omega
  constructor
  · show ((s.books.map (updAvail bid (-1))).map Book.id).Nodup
    rw [hids]; exact h.books_nodup
  · intro b hbm
    obtain ⟨b0, hb0, rfl⟩ := List.mem_map.mp hbm
    show (updAvail bid (-1) b0).id < s.next_book_id
    rw [updAvail_id]
    exact h.books_lt b0 hb0
  · show ((s.borrows ++ [(⟨s.next_borrow_id, p, bid, today, today + 14,
        none⟩ : BorrowRecord)]).map BorrowRecord.id).Nodup
    rw [List.map_append]
    refine List.Nodup.append h.borrows_nodup (List.nodup_singleton _) ?_
    intro x hx hx2
    simp only [List.map_cons, List.map_nil, List.mem_singleton] at hx2
    exact hfreshb (hx2 ▸ hx)
  · intro r hr
    rcases List.mem_append.mp hr with hr1 | hr2
    · have := h.borrows_lt r hr1
      dsimp only
      omega
    · simp only [List.mem_singleton] at hr2
      subst hr2
      dsimp only
      omega
  · intro r hr
    rcases List.mem_append.mp hr with hr1 | hr2
    · have := h.borrows_book_lt r hr1
      dsimp only
      omega
    · simp only [List.mem_singleton] at hr2
      subst hr2
      dsimp only
      have hspec := get_book_by_id_spec s bid book hb
      have hlt := h.books_lt book hspec.1
      rw [hspec.2] at hlt
      omega
  · intro b hbm
    obtain ⟨b0, hb0, rfl⟩ := List.mem_map.mp hbm
    have hcnt : book_active_count
        { books := s.books.map (updAvail bid (-1)),
          borrows := s.borrows ++
            [⟨s.next_borrow_id, p, bid, today, today + 14, none⟩],
          next_book_id := s.next_book_id,
          next_borrow_id := s.next_borrow_id + 1 } b0.id
        = book_active_count s b0.id + (if bid = b0.id then 1 else 0) := by
      unfold book_active_count
      by_cases hbb : bid = b0.id <;>
        simp [List.countP_append, List.countP_cons, hbb]
    have hc0 := h.counts b0 hb0
    rw [updAvail_id, hcnt, updAvail_avail, updAvail_total]
    by_cases hbb : b0.id = bid
    · rw [if_pos hbb, if_pos hbb.symm]
      push_cast
      omega
    · rw [if_neg hbb, if_neg (fun he => hbb he.symm)]
      push_cast
      omega
  · intro b hbm
    obtain ⟨b0, hb0, rfl⟩ := List.mem_map.mp hbm
    rw [updAvail_avail]
    by_cases hbb : b0.id = bid
    · have hb0eq : b0 = book := mem_eq_of_get h.books_nodup hb hb0 hbb
      subst hb0eq
      rw [if_pos hbb]
      omega
    · rw [if_neg hbb]
      exact h.avail_nonneg b0 hb0

/-- The store a successful return produces satisfies the invariant. -/
theorem return_store_inv (s : Store) (now : Int) (p : String) (bid : Int)
    (r0 : BorrowRecord) (hl : latest_active_borrow s p bid = some r0)
    (h : StoreInv s) :
    StoreInv
      { books := s.books.map (updAvail bid 1),
        borrows := s.borrows.map (closeRec r0.id now),
        next_book_id := s.next_book_id,
        next_borrow_id := s.next_borrow_id } := by
  obtain ⟨hr0m, hr0p, hr0b, hr0r⟩ := latest_active_borrow_spec s p bid r0 hl
  have hids : (s.books.map (updAvail bid 1)).map Book.id
      = s.books.map Book.id := by
    rw [List.map_map]
    exact List.map_congr_left fun b _ => updAvail_id bid 1 b
  have hrids : (s.borrows.map (closeRec r0.id now)).map BorrowRecord.id
      = s.borrows.map BorrowRecord.id := by
    rw [List.map_map]
    exact List.map_congr_left fun r _ => closeRec_id r0.id now r
  constructor
  · show ((s.books.map (updAvail bid 1)).map Book.id).Nodup
    rw [hids]; exact h.books_nodup
  · intro b hbm
    obtain ⟨b0, hb0, rfl⟩ := List.mem_map.mp hbm
    show (updAvail bid 1 b0).id < s.next_book_id
    rw [updAvail_id]
    exact h.books_lt b0 hb0
  · show ((s.borrows.map (closeRec r0.id now)).map BorrowRecord.id).Nodup
    rw [hrids]; exact h.borrows_nodup
  · intro r hr
    obtain ⟨q, hq, rfl⟩ := List.mem_map.mp hr
    show (closeRec r0.id now q).id < s.next_borrow_id
    rw [closeRec_id]
    exact h.borrows_lt q hq
  · intro r hr
    obtain ⟨q, hq, rfl⟩ := List.mem_map.mp hr
    show (closeRec r0.id now q).book_id < s.next_book_id
    rw [closeRec_book]
    exact h.borrows_book_lt q hq
  · intro b hbm
    obtain ⟨b0, hb0, rfl⟩ := List.mem_map.mp hbm
    have key := countP_map_close s.borrows r0 now hr0m h.borrows_nodup
      (fun r => r.book_id == b0.id && r.return_date.isNone)
    have hc0 := h.counts b0 hb0
    unfold book_active_count at hc0
    rw [updAvail_id, updAvail_avail, updAvail_total]
    show (if b0.id = bid then b0.available_copies + 1
        else b0.available_copies) +
      ((s.borrows.map (closeRec r0.id now)).countP
        (fun r => r.book_id == b0.id && r.return_date.isNone) : Int)
      = b0.total_copies
    by_cases hbb : b0.id = bid
    · have hbid : (r0.book_id == b0.id) = true := by simp [hr0b, hbb]
      simp only [hbid, hr0r, Option.isNone_none, Option.isNone_some,
        Bool.and_true, Bool.and_false, Bool.true_and, Bool.false_and,
        eq_self_iff_true, if_true, Bool.false_eq_true, if_false,
        add_zero] at key
      rw [if_pos hbb]
      omega
    · have hbid : (r0.book_id == b0.id) = false := by
        simp only [hr0b, beq_eq_false_iff_ne, ne_eq]
        exact fun he => hbb he.symm
      simp only [hbid, Option.isNone_some, Bool.and_false, Bool.false_and,
        Bool.false_eq_true, if_false, add_zero] at key
      rw [if_neg hbb]
      omega
  · intro b hbm
    obtain ⟨b0, hb0, rfl⟩ := List.mem_map.mp hbm
    rw [updAvail_avail]
    have := h.avail_nonneg b0 hb0
    by_cases hbb : b0.id = bid
    · rw [if_pos hbb]; omega
    · rw [if_neg hbb]; exact this

/-- The borrow operation keeps the invariant. -/
theorem borrow_preserves (s : Store) (today : Int) (p : String) (bid : Int)
    (h : StoreInv s) : StoreInv (borrow_book_by_patron s today p bid).2 := by
  by_cases hs : (borrow_book_by_patron s today p bid).1.1 = true
  · obtain ⟨hv, book, hb, ha, hc⟩ := borrow_success_conditions s today p bid hs
    rw [borrow_success_state s today p bid book hv hb ha hc]
    exact borrow_store_inv s today p bid book hb ha h
  · simp only [Bool.not_eq_true] at hs
    rw [borrow_fail_state s today p bid hs]
    exact h

/-- The return operation keeps the invariant. -/
theorem return_preserves (s : Store) (now : Int) (p : String)
    (obid : Option Int) (h : StoreInv s) :
    StoreInv (return_book_by_patron s now p obid).2 := by
  by_cases hs : (return_book_by_patron s now p obid).1.1 = true
  · obtain ⟨hv, bid, book, r0, hob, hb, hl⟩ :=
      return_success_conditions s now p obid hs
    subst hob
    rw [return_success_state s now p bid book r0 hv hb hl]
    exact return_store_inv s now p bid r0 hl h
  · simp only [Bool.not_eq_true] at hs
    rw [return_fail_state s now p obid hs]
    exact h

/-- Every service call keeps the invariant. -/
theorem applyOp_preserves (s : Store) (op : Op) (h : StoreInv s) :
    StoreInv (applyOp s op) := by
  cases op with
  | add t a i c => exact add_book_preserves s t a i c h
  | borrow d p b => exact borrow_preserves s d p b h
  | ret d p b => exact return_preserves s d p b h

/-- Sequences of service calls keep the invariant. -/
theorem runOps_preserves (ops : List Op) :
    ∀ s, StoreInv s → StoreInv (runOps s ops) := by
  induction ops with
  | nil => intro s h; exact h
  | cons op ops ih => intro s h; exact ih _ (applyOp_preserves s op h)

/-- The two availability updates of a borrow-then-return round cancel. -/
theorem updAvail_cancel (bid : Int) (b : Book) :
    updAvail bid 1 (updAvail bid (-1) b) = b := by
  unfold updAvail
  by_cases hb : b.id = bid
  · have h1 : (b.id == bid) = true := beq_iff_eq.mpr hb
    simp only [h1, if_true]
    have harith : b.available_copies + (-1) + 1 = b.available_copies := by
      omega
    rw [harith]
  · have h1 : (b.id == bid) = false := beq_eq_false_iff_ne.mpr hb
    simp only [h1, Bool.false_eq_true, if_false]

/-- The full effect of one borrow-then-return round, assuming the
borrow's preconditions hold: the stock of books is untouched and the
round leaves behind exactly one closed audit record. -/
theorem borrowThenReturn_state (s : Store) (today now : Int) (p : String)
    (bid : Int) (book : Book) (hInv : StoreInv s)
    (hv : valid_patron_id p = true)
    (hb : get_book_by_id s bid = some book)
    (ha : 0 < book.available_copies)
    (hc : get_patron_borrow_count s p < 5) :
    (return_book_by_patron (borrow_book_by_patron s today p bid).2 now p
      (some bid)).1.1 = true ∧
    borrowThenReturn s today now p bid =
      { books := s.books,
        borrows := s.borrows ++
          [⟨s.next_borrow_id, p, bid, today, today + 14, some now⟩],
        next_book_id := s.next_book_id,
        next_borrow_id := s.next_borrow_id + 1 } := by
  have hbs := borrow_success_state s today p bid book hv hb ha hc
  have hget : get_book_by_id
      ({ books := s.books.map (updAvail bid (-1)),
         borrows := s.borrows ++
           [⟨s.next_borrow_id, p, bid, today, today + 14, none⟩],
         next_book_id := s.next_book_id,
         next_borrow_id := s.next_borrow_id + 1 } : Store) bid
      = some (updAvail bid (-1) book) := by
    show (s.books.map (updAvail bid (-1))).find? (fun b => b.id == bid)
      = some (updAvail bid (-1) book)
    rw [find?_map_pred_comm _ _ _ (fun b => by simp)]
    unfold get_book_by_id at hb
    rw [hb]
    rfl
  have hact : isActiveFor p bid
      (⟨s.next_borrow_id, p, bid, today, today + 14, none⟩ : BorrowRecord)
      = true := by
    simp [isActiveFor]
  have hlatest : latest_active_borrow
      ({ books := s.books.map (updAvail bid (-1)),
         borrows := s.borrows ++
           [⟨s.next_borrow_id, p, bid, today, today + 14, none⟩],
         next_book_id := s.next_book_id,
         next_borrow_id := s.next_borrow_id + 1 } : Store) p bid
      = some ⟨s.next_borrow_id, p, bid, today, today + 14, none⟩ := by
    show ((s.borrows ++
      [(⟨s.next_borrow_id, p, bid, today, today + 14, none⟩ :
        BorrowRecord)]).reverse).find? (isActiveFor p bid) = _
    rw [List.reverse_append, List.reverse_singleton, List.singleton_append,
      List.find?_cons_of_pos _ hact]
  have hrs := return_success_state
    ({ books := s.books.map (updAvail bid (-1)),
       borrows := s.borrows ++
         [⟨s.next_borrow_id, p, bid, today, today + 14, none⟩],
       next_book_id := s.next_book_id,
       next_borrow_id := s.next_borrow_id + 1 } : Store) now p bid
    (updAvail bid (-1) book)
    (⟨s.next_borrow_id, p, bid, today, today + 14, none⟩ : BorrowRecord)
    hv hget hlatest
  have hbooks : (s.books.map (updAvail bid (-1))).map (updAvail bid 1)
      = s.books := by
    rw [List.map_map]
    exact List.map_id'' (fun b => updAvail_cancel bid b) s.books
  have hclose : ∀ r ∈ s.borrows,
      closeRec s.next_borrow_id now r = r := by
    intro r hr
    refine closeRec_eq_self _ _ _ ?_
    have := hInv.borrows_lt r hr
    omega
  have hborrows : (s.borrows ++
      [(⟨s.next_borrow_id, p, bid, today, today + 14, none⟩ :
        BorrowRecord)]).map (closeRec s.next_borrow_id now)
      = s.borrows ++
        [⟨s.next_borrow_id, p, bid, today, today + 14, some now⟩] := by
    rw [List.map_append, List.map_congr_left hclose, List.map_id']
    simp [closeRec]
  constructor
  · simp only [hbs]
    rw [hrs]
  · unfold borrowThenReturn
    simp only [hbs]
    rw [hrs]
    simp only []
    rw [hbooks, hborrows]

/-- Iterating borrow-then-return never changes the books table, as long
as the first borrow's preconditions hold (they are re-established after
every round). -/
theorem repeat_pair_books (p : String) (bid : Int) (book : Book) :
    ∀ (N : Nat) (dates : Nat → Int × Int) (s : Store), StoreInv s →
      valid_patron_id p = true →
      get_book_by_id s bid = some book →
      0 < book.available_copies →
      get_patron_borrow_count s p < 5 →
      (repeatBorrowReturn p bid dates s N).books = s.books := by
  intro N
  induction N with
  | zero => intro dates s _ _ _ _ _; rfl
  | succ n ih =>
    intro dates s hInv hv hb ha hc
    have hpair := borrowThenReturn_state s (dates n).1 (dates n).2 p bid book
      hInv hv hb ha hc
    have hInv2 : StoreInv (borrowThenReturn s (dates n).1 (dates n).2 p bid) := by
      unfold borrowThenReturn
      exact return_preserves _ _ _ _ (borrow_preserves _ _ _ _ hInv)
    have hbooks2 : (borrowThenReturn s (dates n).1 (dates n).2 p bid).books
        = s.books := by
      rw [hpair.2]
    have hb2 : get_book_by_id (borrowThenReturn s (dates n).1 (dates n).2 p bid)
        bid = some book := by
      unfold get_book_by_id
      rw [hbooks2]
      exact hb
    have hc2 : get_patron_borrow_count
        (borrowThenReturn s (dates n).1 (dates n).2 p bid) p < 5 := by
      rw [hpair.2]
      unfold get_patron_borrow_count
      simp only [List.countP_append, List.countP_cons, List.countP_nil,
        Option.isNone_some, Bool.and_false, Bool.false_eq_true, if_false,
        Nat.zero_add, Nat.add_zero]
      exact hc
    show (repeatBorrowReturn p bid dates
      (borrowThenReturn s (dates n).1 (dates n).2 p bid) n).books = s.books
    rw [ih dates _ hInv2 hv hb2 ha hc2, hbooks2]

/-- A successful borrow lowers the borrowed book's availability by
exactly one. -/
theorem borrow_delta (s : Store) (today : Int) (p : String) (bid : Int)
    (book : Book) (hb : get_book_by_id s bid = some book)
    (hs : (borrow_book_by_patron s today p bid).1.1 = true) :
    get_book_by_id (borrow_book_by_patron s today p bid).2 bid
      = some { book with available_copies := book.available_copies - 1 } := by
  obtain ⟨hv, book2, hb2, ha, hc⟩ := borrow_success_conditions s today p bid hs
  have hbeq : book = book2 := by
    rw [hb] at hb2
    exact Option.some_inj.mp hb2
  subst hbeq
  rw [borrow_success_state s today p bid book hv hb ha hc]
  show (s.books.map (updAvail bid (-1))).find? (fun b => b.id == bid)
    = some { book with available_copies := book.available_copies - 1 }
  rw [find?_map_pred_comm _ _ _ (fun b => by simp)]
  unfold get_book_by_id at hb
  rw [hb]
  have hid : (book.id == bid) = true :=
    beq_iff_eq.mpr (get_book_by_id_spec s bid book (by exact hb)).2
  have harith : book.available_copies + (-1) = book.available_copies - 1 := by
    omega
  simp only [Option.map_some', updAvail, hid, if_true, harith]

/-- A successful return raises the returned book's availability by
exactly one. -/
theorem return_delta (s : Store) (now : Int) (p : String) (bid : Int)
    (book : Book) (hb : get_book_by_id s bid = some book)
    (hs : (return_book_by_patron s now p (some bid)).1.1 = true) :
    get_book_by_id (return_book_by_patron s now p (some bid)).2 bid
      = some { book with available_copies := book.available_copies + 1 } := by
  obtain ⟨hv, bid2, book2, r0, hob, hb2, hl⟩ :=
    return_success_conditions s now p (some bid) hs
  have hbideq : bid = bid2 := Option.some_inj.mp hob
  subst hbideq
  have hbeq : book = book2 := by
    rw [hb] at hb2
    exact Option.some_inj.mp hb2
  subst hbeq
  rw [return_success_state s now p bid book r0 hv hb hl]
  show (s.books.map (updAvail bid 1)).find? (fun b => b.id == bid)
    = some { book with available_copies := book.available_copies + 1 }
  rw [find?_map_pred_comm _ _ _ (fun b => by simp)]
  unfold get_book_by_id at hb
  rw [hb]
  have hid : (book.id == bid) = true :=
    beq_iff_eq.mpr (get_book_by_id_spec s bid book (by exact hb)).2
  simp only [Option.map_some', updAvail, hid, if_true]

/-- The invariant holds in a fresh database. -/
theorem storeInv_empty : StoreInv Store.empty := by
  constructor <;> simp [Store.empty]

/-! ### The claims -/

/-- Claim C1: for the active loan that `calculate_late_fee_for_book`
resolves for `(patron_id, book_id)`, zero overdue days (whole-day
calendar difference floored at 0) yields status `on_time` with fee 0,
and a positive number `d` of overdue days yields status `late` with
fee min(15.00, 0.50·min(d,7) + 1.00·max(d−7,0)) dollars, stated here
in exact cents (every such amount is a multiple of 50 cents, on which
Python's 2-decimal rounding is the identity). -/
theorem C1_late_fee_formula (s : Store) (today : Int) (p : String)
    (bid : Int) (r0 : BorrowRecord) (hv : valid_patron_id p = true)
    (hl : latest_active_borrow s p bid = some r0) :
    ((today - r0.due_date).toNat = 0 →
      calculate_late_fee_for_book s today p (some bid)
        = ⟨0, 0, FeeStatus.on_time⟩) ∧
    (0 < (today - r0.due_date).toNat →
      calculate_late_fee_for_book s today p (some bid)
        = ⟨min 1500 (min (today - r0.due_date).toNat 7 * 50
            + ((today - r0.due_date).toNat - 7) * 100),
           (today - r0.due_date).toNat, FeeStatus.late⟩) := by
  unfold calculate_late_fee_for_book
  simp only [hv, hl, Bool.not_true, Bool.false_eq_true, if_false]
  constructor
  · intro h0
    simp [h0]
  · intro hpos
    have h0 : ((today - r0.due_date).toNat == 0) = false := by
      simp only [beq_eq_false_iff_ne, ne_eq]
      omega
    simp [h0]

/-- Witness for C1: a loan due on day 114, queried on day 123 (nine
days overdue), is charged 7·50 + 2·100 = 550 cents, status `late`. -/
theorem C1_witness :
    calculate_late_fee_for_book
      ⟨[], [⟨1, "123456", 1, 100, 114, none⟩], 1, 2⟩ 123 "123456" (some 1)
      = ⟨550, 9, FeeStatus.late⟩ := by
  have h := (C1_late_fee_formula
    ⟨[], [⟨1, "123456", 1, 100, 114, none⟩], 1, 2⟩ 123 "123456" 1
    ⟨1, "123456", 1, 100, 114, none⟩ (by decide) (by decide)).2 (by decide)
  exact h.trans (by decide)

/-- Claim C2: starting from a successful `add_book_to_catalog`, every
sequence of add/borrow/return calls keeps every book's availability
within 0 ≤ available_copies ≤ total_copies; moreover each successful
borrow lowers the borrowed book's availability by exactly one and each
successful return raises it by exactly one. -/
theorem C2_availability_invariant (s0 : Store) (t a i : Option String)
    (c : PyNum) (ops : List Op) (hInv : StoreInv s0)
    (hadd : (add_book_to_catalog s0 t a i c).1.1 = true) :
    (∀ b ∈ (runOps (add_book_to_catalog s0 t a i c).2 ops).books,
        0 ≤ b.available_copies ∧ b.available_copies ≤ b.total_copies)
    ∧ (∀ (s : Store) (today : Int) (p : String) (bid : Int) (book : Book),
        get_book_by_id s bid = some book →
        (borrow_book_by_patron s today p bid).1.1 = true →
        get_book_by_id (borrow_book_by_patron s today p bid).2 bid
          = some { book with available_copies := book.available_copies - 1 })
    ∧ (∀ (s : Store) (now : Int) (p : String) (bid : Int) (book : Book),
        get_book_by_id s bid = some book →
        (return_book_by_patron s now p (some bid)).1.1 = true →
        get_book_by_id (return_book_by_patron s now p (some bid)).2 bid
          = some { book with available_copies := book.available_copies + 1 }) := by
  refine ⟨?_, ?_, ?_⟩
  · exact
      (runOps_preserves ops _ (add_book_preserves s0 t a i c hInv)).bounds
  · intro s today p bid book hb hs
    exact borrow_delta s today p bid book hb hs
  · intro s now p bid book hb hs
    exact return_delta s now p bid book hb hs

/-- Witness for C2: after adding a two-copy book to an empty catalog, a
successful borrow leaves exactly one available copy. -/
theorem C2_witness :
    get_book_by_id
      (borrow_book_by_patron
        (add_book_to_catalog Store.empty (some "T") (some "A")
          (some "1234567890123") (PyNum.int 2)).2 100 "123456" 1).2 1
      = some ⟨1, "T", "A", "1234567890123", 2, 1⟩ := by
  have h := (C2_availability_invariant Store.empty (some "T") (some "A")
    (some "1234567890123") (PyNum.int 2) [] storeInv_empty (by decide)).2.1
    (add_book_to_catalog Store.empty (some "T") (some "A")
      (some "1234567890123") (PyNum.int 2)).2 100 "123456" 1
    ⟨1, "T", "A", "1234567890123", 2, 2⟩ (by decide) (by decide)
  exact h.trans (by decide)

/-- Claim C3 as stated is false of the code: when the borrow-record
insert succeeds and the availability decrement write fails, the
operation reports the persistence error but the store is NOT left
unchanged — the newly inserted active borrow record stays behind,
violating the all-or-nothing requirement of spec sections 4.2 and 5. -/
theorem C3_interrupted_write_leaves_record :
    (borrow_book_by_patron_wf
        ⟨[⟨1, "T", "A", "1234567890123", 1, 1⟩], [], 2, 1⟩
        100 "123456" 1 true false).1
      = (false, "Database error occurred while updating book availability.")
    ∧ (borrow_book_by_patron_wf
        ⟨[⟨1, "T", "A", "1234567890123", 1, 1⟩], [], 2, 1⟩
        100 "123456" 1 true false).2.borrows
      = [⟨1, "123456", 1, 100, 114, none⟩]
    ∧ (borrow_book_by_patron_wf
        ⟨[⟨1, "T", "A", "1234567890123", 1, 1⟩], [], 2, 1⟩
        100 "123456" 1 true false).2
      ≠ ⟨[⟨1, "T", "A", "1234567890123", 1, 1⟩], [], 2, 1⟩ := by
  refine ⟨by decide, by decide, by decide⟩

/-- Claim C4 as stated is false of the code: field validation runs
before the duplicate-ISBN check, so a duplicate ISBN combined with an
empty title fails with the title validation message, not with
`DuplicateIsbnError`. -/
theorem C4_counterexample :
    (get_book_by_isbn ⟨[⟨1, "T", "A", "1234567890123", 3, 3⟩], [], 2, 1⟩
        "1234567890123").isSome = true
    ∧ add_book_to_catalog ⟨[⟨1, "T", "A", "1234567890123", 3, 3⟩], [], 2, 1⟩
        (some "") (some "Author") (some "1234567890123") (PyNum.int 3)
      = ((false, "Title is required."),
         ⟨[⟨1, "T", "A", "1234567890123", 3, 3⟩], [], 2, 1⟩)
    ∧ (add_book_to_catalog ⟨[⟨1, "T", "A", "1234567890123", 3, 3⟩], [], 2, 1⟩
        (some "") (some "Author") (some "1234567890123") (PyNum.int 3)).1.2
      ≠ "A book with this ISBN already exists." := by
  refine ⟨by decide, by decide, by decide⟩

/-- Claim C4 amended: a call whose (trimmed) isbn equals a stored
book's isbn never succeeds; it fails with the DuplicateIsbnError
message whenever title, author and total_copies themselves pass
validation, and with the corresponding validation message otherwise. -/
theorem C4_duplicate_isbn (s : Store) (t a i : Option String) (c : PyNum)
    (book : Book) (hmem : book ∈ s.books)
    (hisbn : pyStrip (i.getD "") = book.isbn)
    (h13 : valid_isbn13 book.isbn = true) :
    (add_book_to_catalog s t a i c).1.1 = false ∧
    (pyStrip (t.getD "") ≠ "" → (pyStrip (t.getD "")).length ≤ 200 →
     pyStrip (a.getD "") ≠ "" → (pyStrip (a.getD "")).length ≤ 100 →
     c.is_int = true → 0 < c.val →
     add_book_to_catalog s t a i c
       = ((false, "A book with this ISBN already exists."), s)) := by
  have hdup : (get_book_by_isbn s (pyStrip (i.getD ""))).isSome = true := by
    rw [hisbn]
    unfold get_book_by_isbn
    rw [List.find?_isSome]
    exact ⟨book, hmem, by simp⟩
  constructor
  · unfold add_book_to_catalog
    split_ifs <;> first | rfl | simp_all
  · intro ht1 ht2 ha1 ha2 hci hcv
    have e1 : (pyStrip (t.getD "") == "") = false := beq_eq_false_iff_ne.mpr ht1
    have e2 : ¬ (200 < (pyStrip (t.getD "")).length) := not_lt.mpr ht2
    have e3 : (pyStrip (a.getD "") == "") = false := beq_eq_false_iff_ne.mpr ha1
    have e4 : ¬ (100 < (pyStrip (a.getD "")).length) := not_lt.mpr ha2
    have e5 : valid_isbn13 (pyStrip (i.getD "")) = true := by
      rw [hisbn]; exact h13
    have e6 : (c.is_int && decide (0 < c.val)) = true := by
      simp [hci, hcv]
    unfold add_book_to_catalog
    simp [e1, e2, e3, e4, e5, e6, hdup]

/-- Witness for the amended C4: adding a second book with an already
stored ISBN and otherwise valid fields fails with the duplicate
message and leaves the store unchanged. -/
theorem C4_witness :
    add_book_to_catalog ⟨[⟨1, "T", "A", "1234567890123", 3, 3⟩], [], 2, 1⟩
      (some "X") (some "Y") (some "1234567890123") (PyNum.int 1)
      = ((false, "A book with this ISBN already exists."),
         ⟨[⟨1, "T", "A", "1234567890123", 3, 3⟩], [], 2, 1⟩) := by
  exact (C4_duplicate_isbn ⟨[⟨1, "T", "A", "1234567890123", 3, 3⟩], [], 2, 1⟩
    (some "X") (some "Y") (some "1234567890123") (PyNum.int 1)
    ⟨1, "T", "A", "1234567890123", 3, 3⟩ (by decide) (by decide)
    (by decide)).2 (by decide) (by decide) (by decide) (by decide)
    (by decide) (by decide)

/-- Claim C5: when a borrow succeeds, the matching return succeeds and
restores the book's lookup result (hence its available_copies) to the
pre-borrow value, and N borrow-then-return rounds, for every N and any
schedule of dates, leave the book lookup (hence available_copies)
unchanged. -/
theorem C5_borrow_return_roundtrip (s : Store) (today now : Int)
    (p : String) (bid : Int) (hInv : StoreInv s)
    (hsucc : (borrow_book_by_patron s today p bid).1.1 = true) :
    (return_book_by_patron (borrow_book_by_patron s today p bid).2 now p
      (some bid)).1.1 = true
    ∧ get_book_by_id (borrowThenReturn s today now p bid) bid
      = get_book_by_id s bid
    ∧ ∀ (dates : Nat → Int × Int) (N : Nat),
        get_book_by_id (repeatBorrowReturn p bid dates s N) bid
          = get_book_by_id s bid := by
  obtain ⟨hv, book, hb, ha, hc⟩ := borrow_success_conditions s today p bid hsucc
  have hpair := borrowThenReturn_state s today now p bid book hInv hv hb ha hc
  refine ⟨hpair.1, ?_, ?_⟩
  · unfold get_book_by_id
    rw [hpair.2]
  · intro dates N
    have hbooks := repeat_pair_books p bid book N dates s hInv hv hb ha hc
    unfold get_book_by_id
    rw [hbooks]

/-- Witness for C5: on a two-copy book, borrow-then-return restores the
lookup to its original value. -/
theorem C5_witness :
    get_book_by_id
      (borrowThenReturn ⟨[⟨1, "T", "A", "1234567890123", 2, 2⟩], [], 2, 1⟩
        100 105 "123456" 1) 1
      = get_book_by_id ⟨[⟨1, "T", "A", "1234567890123", 2, 2⟩], [], 2, 1⟩ 1 := by
  exact (C5_borrow_return_roundtrip
    ⟨[⟨1, "T", "A", "1234567890123", 2, 2⟩], [], 2, 1⟩ 100 105 "123456" 1
    (by constructor <;> decide) (by decide)).2.1

/-- Claim C6: `borrow_book_by_patron` checks patron-id format, book
existence, availability and the loan limit in that fixed order, the
first failing check determines the message, and every failure returns
the store unchanged — in particular a malformed patron id wins over a
missing book, and an unavailable book wins over the loan limit (the
third conjunct places no condition on the patron's loan count). -/
theorem C6_borrow_check_order (s : Store) (today : Int) (p : String)
    (bid : Int) :
    (valid_patron_id p = false →
      borrow_book_by_patron s today p bid
        = ((false, "Invalid patron ID. Must be exactly 6 digits."), s)) ∧
    (valid_patron_id p = true → get_book_by_id s bid = none →
      borrow_book_by_patron s today p bid = ((false, "Book not found."), s)) ∧
    (∀ book, valid_patron_id p = true → get_book_by_id s bid = some book →
      book.available_copies ≤ 0 →
      borrow_book_by_patron s today p bid
        = ((false, "This book is currently not available."), s)) ∧
    (∀ book, valid_patron_id p = true → get_book_by_id s bid = some book →
      0 < book.available_copies → 5 ≤ get_patron_borrow_count s p →
      borrow_book_by_patron s today p bid
        = ((false, "You have reached the maximum borrowing limit of 5 books."),
           s)) := by
  refine ⟨?_, ?_, ?_, ?_⟩
  · intro hv
    unfold borrow_book_by_patron borrow_book_by_patron_wf
    simp [hv]
  · intro hv hb
    unfold borrow_book_by_patron borrow_book_by_patron_wf
    simp [hv, hb]
  · intro book hv hb hav
    unfold borrow_book_by_patron borrow_book_by_patron_wf
    simp [hv, hb, hav]
  · intro book hv hb hav hcnt
    have hav2 : ¬ book.available_copies ≤ 0 := not_le.mpr hav
    unfold borrow_book_by_patron borrow_book_by_patron_wf
    simp [hv, hb, hav2, hcnt]

/-- Witness for C6: the four precedence scenarios at concrete stores —
malformed patron beats missing book; missing book reported for a valid
patron; an exhausted book is reported as unavailable even though the
patron is also at the five-loan limit; the limit is reported once the
book is available. -/
theorem C6_witness :
    borrow_book_by_patron ⟨[], [], 1, 1⟩ 0 "12a456" 9
      = ((false, "Invalid patron ID. Must be exactly 6 digits."),
         ⟨[], [], 1, 1⟩)
    ∧ borrow_book_by_patron ⟨[], [], 1, 1⟩ 0 "123456" 9
      = ((false, "Book not found."), ⟨[], [], 1, 1⟩)
    ∧ borrow_book_by_patron
        ⟨[⟨1, "T", "A", "1234567890123", 1, 0⟩],
         [⟨1, "123456", 1, 0, 14, none⟩, ⟨2, "123456", 1, 0, 14, none⟩,
          ⟨3, "123456", 1, 0, 14, none⟩, ⟨4, "123456", 1, 0, 14, none⟩,
          ⟨5, "123456", 1, 0, 14, none⟩], 2, 6⟩ 0 "123456" 1
      = ((false, "This book is currently not available."),
         ⟨[⟨1, "T", "A", "1234567890123", 1, 0⟩],
          [⟨1, "123456", 1, 0, 14, none⟩, ⟨2, "123456", 1, 0, 14, none⟩,
           ⟨3, "123456", 1, 0, 14, none⟩, ⟨4, "123456", 1, 0, 14, none⟩,
           ⟨5, "123456", 1, 0, 14, none⟩], 2, 6⟩)
    ∧ borrow_book_by_patron
        ⟨[⟨1, "T", "A", "1234567890123", 9, 4⟩],
         [⟨1, "123456", 1, 0, 14, none⟩, ⟨2, "123456", 1, 0, 14, none⟩,
          ⟨3, "123456", 1, 0, 14, none⟩, ⟨4, "123456", 1, 0, 14, none⟩,
          ⟨5, "123456", 1, 0, 14, none⟩], 2, 6⟩ 0 "123456" 1
      = ((false, "You have reached the maximum borrowing limit of 5 books."),
         ⟨[⟨1, "T", "A", "1234567890123", 9, 4⟩],
          [⟨1, "123456", 1, 0, 14, none⟩, ⟨2, "123456", 1, 0, 14, none⟩,
           ⟨3, "123456", 1, 0, 14, none⟩, ⟨4, "123456", 1, 0, 14, none⟩,
           ⟨5, "123456", 1, 0, 14, none⟩], 2, 6⟩) := by
  refine ⟨?_, ?_, ?_, ?_⟩
  · exact (C6_borrow_check_order ⟨[], [], 1, 1⟩ 0 "12a456" 9).1 (by decide)
  · exact (C6_borrow_check_order ⟨[], [], 1, 1⟩ 0 "123456" 9).2.1 (by decide)
      (by decide)
  · exact (C6_borrow_check_order _ 0 "123456" 1).2.2.1
      ⟨1, "T", "A", "1234567890123", 1, 0⟩ (by decide) (by decide) (by decide)
  · exact (C6_borrow_check_order _ 0 "123456" 1).2.2.2
      ⟨1, "T", "A", "1234567890123", 9, 4⟩ (by decide) (by decide) (by decide)
      (by decide)

/-- Claim C7: with a valid patron id, an existing book, and no active
record for the pair, the return fails with the no-active-loan message
and the store — availability and every borrow record — is returned
unchanged. -/
theorem C7_no_active_loan (s : Store) (now : Int) (p : String) (bid : Int)
    (book : Book) (hv : valid_patron_id p = true)
    (hb : get_book_by_id s bid = some book)
    (hno : ∀ r ∈ s.borrows,
      ¬(r.patron_id = p ∧ r.book_id = bid ∧ r.return_date = none)) :
    return_book_by_patron s now p (some bid)
      = ((false, "No active borrow for this patron and book."), s) := by
  have hlat : latest_active_borrow s p bid = none := by
    unfold latest_active_borrow
    rw [List.find?_eq_none]
    intro r hr
    have hrm : r ∈ s.borrows := List.mem_reverse.mp hr
    intro hact
    unfold isActiveFor at hact
    simp only [Bool.and_eq_true, beq_iff_eq,
      Option.isNone_iff_eq_none] at hact
    exact hno r hrm ⟨hact.1.1, hact.1.2, hact.2⟩
  unfold return_book_by_patron
  simp [hv, hb, update_borrow_record_return_date, hlat]

/-- Witness for C7: returning a book whose only record for the patron
is already closed fails with the no-active-loan message and keeps the
store intact. -/
theorem C7_witness :
    return_book_by_patron
      ⟨[⟨1, "T", "A", "1234567890123", 2, 2⟩],
       [⟨1, "123456", 1, 0, 14, some 20⟩], 2, 2⟩ 30 "123456" (some 1)
      = ((false, "No active borrow for this patron and book."),
         ⟨[⟨1, "T", "A", "1234567890123", 2, 2⟩],
          [⟨1, "123456", 1, 0, 14, some 20⟩], 2, 2⟩) := by
  exact C7_no_active_loan
    ⟨[⟨1, "T", "A", "1234567890123", 2, 2⟩],
     [⟨1, "123456", 1, 0, 14, some 20⟩], 2, 2⟩ 30 "123456" 1
    ⟨1, "T", "A", "1234567890123", 2, 2⟩ (by decide) (by decide) (by decide)

/-- Claim C8: the fee calculation never signals an error: an
invalid-format patron id or an unresolvable (non-integer) book id
yields the safe default {fee 0, days 0, `no_active_loan`} — the same
value produced when no active loan exists for the pair. -/
theorem C8_fee_never_errors (s : Store) (today : Int) (p : String)
    (obid : Option Int) :
    ((valid_patron_id p = false ∨ obid = none) →
      calculate_late_fee_for_book s today p obid
        = ⟨0, 0, FeeStatus.no_active_loan⟩) ∧
    (∀ bid, valid_patron_id p = true →
      latest_active_borrow s p bid = none →
      calculate_late_fee_for_book s today p (some bid)
        = ⟨0, 0, FeeStatus.no_active_loan⟩) := by
  constructor
  · intro h
    rcases h with hv | hnone
    · unfold calculate_late_fee_for_book
      simp [hv]
    · subst hnone
      unfold calculate_late_fee_for_book
      cases hv : valid_patron_id p <;> simp
  · intro bid hv hl
    unfold calculate_late_fee_for_book
    simp [hv, hl]

/-- Witness for C8: a malformed patron id together with an
unresolvable book id produces the safe default. -/
theorem C8_witness :
    calculate_late_fee_for_book Store.empty 0 "12ab56" none
      = ⟨0, 0, FeeStatus.no_active_loan⟩ := by
  exact (C8_fee_never_errors Store.empty 0 "12ab56" none).1 (Or.inr rfl)

/-- Claim C9: passing None for title, author or isbn never raises:
None is coerced to the empty string before trimming (`(x or "")`), the
call runs the ordinary validation path — it behaves exactly as if ""
had been passed — and reports a validation failure. -/
theorem C9_none_inputs (s : Store) (t a i : Option String) (c : PyNum) :
    ((add_book_to_catalog s none a i c).1.1 = false ∧
      add_book_to_catalog s none a i c
        = add_book_to_catalog s (some "") a i c) ∧
    ((add_book_to_catalog s t none i c).1.1 = false ∧
      add_book_to_catalog s t none i c
        = add_book_to_catalog s t (some "") i c) ∧
    ((add_book_to_catalog s t a none c).1.1 = false ∧
      add_book_to_catalog s t a none c
        = add_book_to_catalog s t a (some "") c) := by
  refine ⟨⟨?_, rfl⟩, ⟨?_, rfl⟩, ⟨?_, rfl⟩⟩
  · have h0 : pyStrip "" = "" := by decide
    unfold add_book_to_catalog
    simp [h0]
  · have h0 : pyStrip "" = "" := by decide
    unfold add_book_to_catalog
    split_ifs <;> simp_all
  · have h0 : valid_isbn13 (pyStrip (none.getD "")) = false := by decide
    unfold add_book_to_catalog
    split_ifs <;> first | rfl | simp_all

/-- Claim C10: the boolean True passed as total_copies is accepted
(bool is a subclass of int and True > 0): with otherwise valid, unique
inputs the call succeeds and stores a book with
total_copies = available_copies = 1. -/
theorem C10_bool_total_copies (s : Store) (t a i : Option String)
    (ht1 : pyStrip (t.getD "") ≠ "") (ht2 : (pyStrip (t.getD "")).length ≤ 200)
    (ha1 : pyStrip (a.getD "") ≠ "") (ha2 : (pyStrip (a.getD "")).length ≤ 100)
    (hi : valid_isbn13 (pyStrip (i.getD "")) = true)
    (hdup : get_book_by_isbn s (pyStrip (i.getD "")) = none) :
    add_book_to_catalog s t a i (PyNum.bool true)
      = ((true, "Book \"" ++ pyStrip (t.getD "")
            ++ "\" has been successfully added to the catalog."),
         { s with
           books := s.books ++
             [⟨s.next_book_id, pyStrip (t.getD ""), pyStrip (a.getD ""),
               pyStrip (i.getD ""), 1, 1⟩],
           next_book_id := s.next_book_id + 1 }) := by
  have e1 : (pyStrip (t.getD "") == "") = false := beq_eq_false_iff_ne.mpr ht1
  have e2 : ¬ (200 < (pyStrip (t.getD "")).length) := not_lt.mpr ht2
  have e3 : (pyStrip (a.getD "") == "") = false := beq_eq_false_iff_ne.mpr ha1
  have e4 : ¬ (100 < (pyStrip (a.getD "")).length) := not_lt.mpr ha2
  have e7 : (get_book_by_isbn s (pyStrip (i.getD ""))).isSome = false := by
    rw [hdup]; rfl
  unfold add_book_to_catalog
  simp only [e1, e2, e3, e4, hi, e7, Bool.not_true, Bool.false_eq_true,
    if_false, PyNum.is_int, decide_eq_true_eq]
  norm_num [insert_book, PyNum.val]

/-- Witness for C10: adding a book with True as total_copies succeeds
and seeds one total and one available copy. -/
theorem C10_witness :
    add_book_to_catalog Store.empty (some "T") (some "A")
      (some "1234567890123") (PyNum.bool true)
      = ((true, "Book \"T\" has been successfully added to the catalog."),
         ⟨[⟨1, "T", "A", "1234567890123", 1, 1⟩], [], 2, 1⟩) := by
  exact (C10_bool_total_copies Store.empty (some "T") (some "A")
    (some "1234567890123") (by decide) (by decide) (by decide) (by decide)
    (by decide) (by decide)).trans (by decide)

end Library
